import Mathlib

/-!
Shallow embedding of the storage subsystem of `devsnb/large-file-uploads`
(Go): the provider registry / factory / storage-backend contract from
`pkg/storage` (`storage.go`, `factory.go`, `minio.go`, `azure.go`).

Go `map[string]interface{}` property bags are embedded as association
lists over a small value universe (`PropValue`); the Go map holds at most
one value per key, which corresponds to `List.lookup` (first match).
External SDK effects (AWS config loading, S3 HeadBucket/CreateBucket,
Azure service construction) are oracles (`S3World`, `AzureWorld`), and
each `Initialize` additionally returns the list of SDK operations it
issued, in order, so that statements about "verifies the bucket exists
after constructing the client" are about that trace.  Pointer identity of
composers (`tusd.NewStoreComposer()` allocations) is embedded as a
caller-supplied fresh numeric id.
-/

/-- A value stored in the Go `map[string]interface{}` property bag:
a string, a boolean, or any other dynamic value (whose payload the
storage code never inspects, since its type assertions fail on it). -/
inductive PropValue where
  | str (s : String)
  | boolean (b : Bool)
  | other
deriving DecidableEq, Repr

/-- Association-list embedding of the Go `map[string]interface{}`;
a Go map has at most one binding per key, matching `List.lookup`. -/
def Props := List (String × PropValue)

instance : DecidableEq Props := by unfold Props; infer_instance

/-- Provider identifiers are Go strings (`type Provider string`). -/
def Provider := String

instance : DecidableEq Provider := by unfold Provider; infer_instance

/-- Embeds `MinIO Provider = "minio"` from storage.go. -/
def MinIO : Provider := "minio"

/-- Embeds `Azure Provider = "azure"` from storage.go. -/
def Azure : Provider := "azure"

/-- Embeds `Disk Provider = "disk"` from storage.go (declared, never registered). -/
def Disk : Provider := "disk"

/-- Embeds `Memory Provider = "memory"` from storage.go (declared, never registered). -/
def Memory : Provider := "memory"

/-- Embeds `Config` from storage.go: provider identifier plus nil-able property bag. -/
structure Config where
  Provider : Provider
  Properties : Option Props
deriving DecidableEq

/-- Go error values produced along the storage paths, with `wrapped`
standing for `fmt.Errorf("...: %w", err)`. -/
inductive GoError where
  /-- Embeds `ErrStorageNotConfigured` from storage.go. -/
  | storageNotConfigured
  /-- Embeds `ErrInvalidConfig` from storage.go. -/
  | invalidConfig
  /-- Embeds `ErrStorageUnavailable` from storage.go. -/
  | storageUnavailable
  /-- an error returned by `azurestore.NewAzureService` (external SDK). -/
  | azureServiceFailed
  /-- an error returned by `config.LoadDefaultConfig` (external SDK). -/
  | awsConfigLoadFailed
  /-- an error returned by `s3.Client.HeadBucket` (external SDK). -/
  | headBucketFailed
  /-- an error returned by `s3.Client.CreateBucket` (external SDK). -/
  | createBucketFailed
  /-- an error returned by `tusd.NewHandler` (external library). -/
  | newHandlerFailed
  /-- Embeds `fmt.Errorf("storage provider %s not found", provider)`. -/
  | providerNotFound (p : String)
  /-- Embeds `fmt.Errorf("unsupported storage provider: %s", provider)`. -/
  | unsupportedProvider (p : String)
  /-- Embeds `fmt.Errorf(ctxMsg ++ ": %w", inner)`. -/
  | wrapped (ctxMsg : String) (inner : GoError)
deriving DecidableEq, Repr

deriving instance DecidableEq for Except

/-- Go `errors.Is(e, target)` restricted to the wrap chains built here. -/
def GoError.wraps : GoError → GoError → Bool
  | e, target =>
    match e with
    | .wrapped _ inner => (e == target) || inner.wraps target
    | e => e == target

/-- The tusd `StoreComposer`: `ptr` is the allocation identity of the
`tusd.NewStoreComposer()` call that produced it; the flags record which
capabilities have been installed via `UseIn`. -/
structure StoreComposer where
  ptr : Nat
  hasLocker : Bool
  hasStore : Bool
deriving DecidableEq, Repr

/-- Embeds `tusd.NewStoreComposer()`: a fresh, empty composer. -/
def NewStoreComposer (fresh : Nat) : StoreComposer :=
  { ptr := fresh, hasLocker := false, hasStore := false }

/-- The SDK-level operations `Initialize` can issue, in trace order. -/
inductive SdkOp where
  /-- Embeds `config.LoadDefaultConfig` (AWS SDK). -/
  | loadAwsConfig
  /-- Embeds `s3.NewFromConfig` with the recorded `UsePathStyle` option. -/
  | mkS3Client (usePathStyle : Bool)
  /-- Embeds `s3.Client.HeadBucket` on the named bucket (existence check). -/
  | headBucket (bucket : String)
  /-- Embeds `s3.Client.CreateBucket` on the named bucket. -/
  | createBucket (bucket : String)
  /-- Embeds `azurestore.NewAzureService` for the named account and container. -/
  | newAzureService (accountName containerName : String)
deriving DecidableEq, Repr

/-- An operation that checks whether the target bucket/container exists. -/
def SdkOp.isExistenceCheck : SdkOp → Bool
  | .headBucket _ => true
  | _ => false

/-! ### Property-bag reads (the Go type-assertion pattern) -/

/-- Lookup in the nil-able property bag (`cfg.Properties != nil` guard
plus map indexing). -/
def lookupProp : Option Props → String → Option PropValue
  | none, _ => none
  | some l, k => l.lookup k

/-- The Go pattern `if v, ok := Properties[key].(string); ok && v != "" { field = v }`
applied to a field whose default is `dflt`. -/
def getStrProp (ps : Option Props) (key dflt : String) : String :=
  match lookupProp ps key with
  | some (.str s) => if s ≠ "" then s else dflt
  | _ => dflt

/-- The Go pattern `if v, ok := Properties[key].(bool); ok { field = v }`
applied to a field whose default is `dflt`. -/
def getBoolProp (ps : Option Props) (key : String) (dflt : Bool) : Bool :=
  match lookupProp ps key with
  | some (.boolean b) => b
  | _ => dflt

/-! ### S3-compatible (MinIO) backend, from minio.go -/

/-- Embeds `S3Config` from minio.go. -/
structure S3Config where
  endpoint : String
  bucket : String
  region : String
  accessKey : String
  secretKey : String
  useSSL : Bool
  pathStyle : Bool
  disableSSL : Bool
deriving DecidableEq, Repr

/-- The default `S3Config` literal at the top of `MinIOStorage.Initialize`. -/
def defaultS3Config : S3Config :=
  { endpoint := "localhost:9000", bucket := "uploads", region := "us-east-1"
    accessKey := "minioadmin", secretKey := "minioadmin"
    useSSL := false, pathStyle := true, disableSSL := true }

/-- The default-then-override block of `MinIOStorage.Initialize`
(minio.go lines 364-409): each field is touched by exactly one key, so
the sequential overrides are read field by field. -/
def parseS3Config (ps : Option Props) : S3Config :=
  { endpoint := getStrProp ps "endpoint" defaultS3Config.endpoint
    bucket := getStrProp ps "bucket" defaultS3Config.bucket
    region := getStrProp ps "region" defaultS3Config.region
    accessKey := getStrProp ps "accessKey" defaultS3Config.accessKey
    secretKey := getStrProp ps "secretKey" defaultS3Config.secretKey
    useSSL := getBoolProp ps "useSSL" defaultS3Config.useSSL
    pathStyle := getBoolProp ps "pathStyle" defaultS3Config.pathStyle
    disableSSL := getBoolProp ps "disableSSL" defaultS3Config.disableSSL }

/-- The URL the endpoint resolver hands to the AWS SDK: `protocol` is
`https` iff `UseSSL`, and the scheme is prefixed unless the endpoint
already starts with `http`/`https` (minio.go lines 420-430; Go's byte
slicing `minioURL[:5]` on a 4-byte non-"http" endpoint would panic, a
case the truncating `String.take` renders as the prefixing branch). -/
def minioURL (cfg : S3Config) : String :=
  let protocol := if cfg.useSSL then "https" else "http"
  if cfg.endpoint.length < 4 ∨
      (cfg.endpoint.take 4 ≠ "http" ∧ cfg.endpoint.take 5 ≠ "https") then
    protocol ++ "://" ++ cfg.endpoint
  else
    cfg.endpoint

/-- The S3 SDK client, recorded by its construction parameters
(minio.go lines 432-459). -/
structure S3Client where
  url : String
  region : String
  accessKey : String
  secretKey : String
  usePathStyle : Bool
deriving DecidableEq, Repr

/-- Client construction in `MinIOStorage.Initialize`: resolver URL,
region and static credentials from the parsed config, and
`o.UsePathStyle = true` set unconditionally in the options closure. -/
def mkS3Client (cfg : S3Config) : S3Client :=
  { url := minioURL cfg, region := cfg.region
    accessKey := cfg.accessKey, secretKey := cfg.secretKey
    usePathStyle := true }

/-- The mutable fields of `MinIOStorage`. -/
structure MinIOStorage where
  config : S3Config
  s3Client : Option S3Client
  composer : StoreComposer
  initialized : Bool
deriving DecidableEq, Repr

/-- Embeds `NewMinIOStorage()` from minio.go: fresh empty composer, not initialized;
the zero-valued `config` field is the Go zero value of `S3Config`. -/
def NewMinIOStorage (fresh : Nat) : MinIOStorage :=
  { config := { endpoint := "", bucket := "", region := "", accessKey := ""
                secretKey := "", useSSL := false, pathStyle := false
                disableSSL := false }
    s3Client := none
    composer := NewStoreComposer fresh
    initialized := false }

/-- Oracle for the external effects of the S3 path: whether
`config.LoadDefaultConfig` succeeds, whether `HeadBucket` reports the
bucket as existing, and whether `CreateBucket` succeeds. -/
structure S3World where
  awsConfigOk : Bool
  bucketExists : Bool
  createBucketOk : Bool
deriving DecidableEq, Repr

/-- Embeds `MinIOStorage.Initialize` (minio.go lines 363-500): parse config over
defaults, store it, load the AWS config, build the client with
path-style forced on, check the bucket with `HeadBucket` and create it
when the check fails, then assemble a fresh composer with locker and
store and mark the instance initialized.  Returns the Go result, the
post-call receiver state, and the SDK operations issued in order. -/
def MinIOStorage.Initialize (w : S3World) (s : MinIOStorage) (cfg : Config)
    (fresh : Nat) : Except GoError Unit × MinIOStorage × List SdkOp :=
  let s3Cfg := parseS3Config cfg.Properties
  let s := { s with config := s3Cfg }
  if w.awsConfigOk = false then
    (.error (.wrapped "failed to load AWS SDK config" .awsConfigLoadFailed), s,
      [.loadAwsConfig])
  else
    let client := mkS3Client s3Cfg
    let s := { s with s3Client := some client }
    let ops := [SdkOp.loadAwsConfig, .mkS3Client client.usePathStyle,
      .headBucket s3Cfg.bucket]
    if w.bucketExists then
      (.ok (),
        { s with
            composer := { ptr := fresh, hasLocker := true, hasStore := true }
            initialized := true },
        ops)
    else if w.createBucketOk then
      (.ok (),
        { s with
            composer := { ptr := fresh, hasLocker := true, hasStore := true }
            initialized := true },
        ops ++ [.createBucket s3Cfg.bucket])
    else
      (.error (.wrapped "error creating bucket" .createBucketFailed), s,
        ops ++ [.createBucket s3Cfg.bucket])

/-- The tusd handler configuration built by `GetHandler`. -/
structure TusdHandler where
  basePath : String
  composer : StoreComposer
  notifyCompleteUploads : Bool
  disableDownload : Bool
deriving DecidableEq, Repr

/-- Embeds `MinIOStorage.GetHandler` (minio.go lines 503-525): NotConfigured
before initialization, otherwise a fresh handler bound to the composer;
`newHandlerOk` is the oracle for the external `tusd.NewHandler` call. -/
def MinIOStorage.GetHandler (newHandlerOk : Bool) (s : MinIOStorage)
    (basePath : String) : Except GoError TusdHandler :=
  if s.initialized = false then
    .error .storageNotConfigured
  else if newHandlerOk then
    .ok { basePath := basePath, composer := s.composer
          notifyCompleteUploads := true, disableDownload := false }
  else
    .error (.wrapped "error creating handler" .newHandlerFailed)

/-- Embeds `MinIOStorage.GetProvider` from minio.go. -/
def MinIOStorage.GetProvider (_ : MinIOStorage) : Provider := MinIO

/-- Embeds `MinIOStorage.GetStoreComposer` from minio.go: returns `s.composer`
and leaves the receiver untouched (the pair makes the non-mutation
explicit for consecutive-call statements). -/
def MinIOStorage.GetStoreComposer (s : MinIOStorage) :
    StoreComposer × MinIOStorage :=
  (s.composer, s)

/-! ### Azure backend, from azure.go -/

/-- Embeds `AzureConfig` from azure.go. -/
structure AzureConfig where
  accountName : String
  accountKey : String
  containerName : String
  endpoint : String
  blobAccessTier : String
  containerAccessType : String
deriving DecidableEq, Repr

/-- The default `AzureConfig` literal at the top of `AzureStorage.Initialize`
(only container name and access type are defaulted; the rest are Go
zero-valued strings). -/
def defaultAzureConfig : AzureConfig :=
  { accountName := "", accountKey := "", containerName := "uploads"
    endpoint := "", blobAccessTier := "", containerAccessType := "private" }

/-- The default-then-override block of `AzureStorage.Initialize`
(azure.go lines 40-72), read field by field. -/
def parseAzureConfig (ps : Option Props) : AzureConfig :=
  { accountName := getStrProp ps "accountName" defaultAzureConfig.accountName
    accountKey := getStrProp ps "accountKey" defaultAzureConfig.accountKey
    containerName := getStrProp ps "containerName" defaultAzureConfig.containerName
    endpoint := getStrProp ps "endpoint" defaultAzureConfig.endpoint
    blobAccessTier := getStrProp ps "blobAccessTier" defaultAzureConfig.blobAccessTier
    containerAccessType :=
      getStrProp ps "containerAccessType" defaultAzureConfig.containerAccessType }

/-- The `azurestore.AzService` handle, recorded by the `AzConfig` the
repository passes to `azurestore.NewAzureService`. -/
structure AzService where
  accountName : String
  accountKey : String
  containerName : String
  endpoint : String
  blobAccessTier : String
  containerAccessType : String
deriving DecidableEq, Repr

/-- The mutable fields of `AzureStorage`. -/
structure AzureStorage where
  config : AzureConfig
  service : Option AzService
  composer : StoreComposer
  initialized : Bool
deriving DecidableEq, Repr

/-- Embeds `NewAzureStorage()` from azure.go: fresh empty composer, not initialized. -/
def NewAzureStorage (fresh : Nat) : AzureStorage :=
  { config := { accountName := "", accountKey := "", containerName := ""
                endpoint := "", blobAccessTier := "", containerAccessType := "" }
    service := none
    composer := NewStoreComposer fresh
    initialized := false }

/-- Oracle for the external `azurestore.NewAzureService` call. -/
structure AzureWorld where
  serviceOk : Bool
deriving DecidableEq, Repr

/-- Embeds `AzureStorage.Initialize` (azure.go lines 40-137): parse config over
defaults, reject empty account name/key wrapping `ErrInvalidConfig`,
store the config, construct the Azure service (the repository's only
SDK call on this path — it performs no container existence check of its
own), then assemble a fresh composer with locker and store and mark the
instance initialized.  The `AzConfig` endpoint equals the parsed
endpoint either way, since the conditional assignment overwrites a
zero-valued field. -/
def AzureStorage.Initialize (w : AzureWorld) (s : AzureStorage) (cfg : Config)
    (fresh : Nat) : Except GoError Unit × AzureStorage × List SdkOp :=
  let azureCfg := parseAzureConfig cfg.Properties
  if azureCfg.accountName = "" then
    (.error (.wrapped "azure account name is required" .invalidConfig), s, [])
  else if azureCfg.accountKey = "" then
    (.error (.wrapped "azure account key is required" .invalidConfig), s, [])
  else
    let s := { s with config := azureCfg }
    let ops := [SdkOp.newAzureService azureCfg.accountName azureCfg.containerName]
    if w.serviceOk then
      (.ok (),
        { s with
            service := some { accountName := azureCfg.accountName
                              accountKey := azureCfg.accountKey
                              containerName := azureCfg.containerName
                              endpoint := azureCfg.endpoint
                              blobAccessTier := azureCfg.blobAccessTier
                              containerAccessType := azureCfg.containerAccessType }
            composer := { ptr := fresh, hasLocker := true, hasStore := true }
            initialized := true },
        ops)
    else
      (.error (.wrapped "error creating Azure service" .azureServiceFailed), s, ops)

/-- Embeds `AzureStorage.GetHandler` (azure.go lines 140-162): same shape as the
MinIO variant. -/
def AzureStorage.GetHandler (newHandlerOk : Bool) (s : AzureStorage)
    (basePath : String) : Except GoError TusdHandler :=
  if s.initialized = false then
    .error .storageNotConfigured
  else if newHandlerOk then
    .ok { basePath := basePath, composer := s.composer
          notifyCompleteUploads := true, disableDownload := false }
  else
    .error (.wrapped "error creating handler" .newHandlerFailed)

/-- Embeds `AzureStorage.GetProvider` from azure.go. -/
def AzureStorage.GetProvider (_ : AzureStorage) : Provider := Azure

/-- Embeds `AzureStorage.GetStoreComposer` from azure.go. -/
def AzureStorage.GetStoreComposer (s : AzureStorage) :
    StoreComposer × AzureStorage :=
  (s.composer, s)

/-! ### Registry and factory, from storage.go and factory.go -/

/-- A registered implementation: one of the two concrete backends. -/
inductive StorageValue where
  | minioS (s : MinIOStorage)
  | azureS (s : AzureStorage)
deriving DecidableEq, Repr

/-- Embeds `Registry` from storage.go: provider identifier → implementation. -/
def Registry := List (Provider × StorageValue)

instance : DecidableEq Registry := by unfold Registry; infer_instance

/-- Embeds `Registry.Get` (storage.go lines 78-83): map lookup, NotFound error
when the identifier is absent. -/
def Registry.Get (r : Registry) (p : Provider) : Except GoError StorageValue :=
  match List.lookup p r with
  | some s => .ok s
  | none => .error (.providerNotFound p)

/-- Embeds `Registry.NewStorageFromConfig` (storage.go lines 86-97): resolve via
`Get`, initialize, wrap initialization failure. -/
def Registry.NewStorageFromConfig (r : Registry) (ws3 : S3World)
    (waz : AzureWorld) (cfg : Config) (fresh : Nat) :
    Except GoError StorageValue :=
  match r.Get cfg.Provider with
  | .error e => .error e
  | .ok (.minioS s) =>
    match MinIOStorage.Initialize ws3 s cfg fresh with
    | (.ok (), s2, _) => .ok (.minioS s2)
    | (.error e, _, _) => .error (.wrapped "failed to initialize storage" e)
  | .ok (.azureS s) =>
    match AzureStorage.Initialize waz s cfg fresh with
    | (.ok (), s2, _) => .ok (.azureS s2)
    | (.error e, _, _) => .error (.wrapped "failed to initialize storage" e)

/-- Embeds `Factory` from factory.go. -/
structure Factory where
  registry : Registry

/-- Embeds `NewFactory()` (factory.go lines 74-84): registers the MinIO and
Azure backends, freshly constructed with the given composer ids. -/
def NewFactory (m a : Nat) : Factory :=
  { registry := [( MinIO, .minioS (NewMinIOStorage m)),
                 (Azure, .azureS (NewAzureStorage a))] }

/-- A process environment: `os.Getenv` returning `""` for unset names. -/
def Env := String → String

/-- Go `strings.ToLower`, character by character over the string's
data (Go folds full Unicode, which restricted to the ASCII provider
identifiers used here is the per-character fold; structural recursion
keeps it kernel-evaluable). -/
def toLowerStr (s : String) : String := String.mk (s.data.map Char.toLower)

/-- Embeds `getEnv` from factory.go. -/
def getEnv (env : Env) (key defaultValue : String) : String :=
  if env key = "" then defaultValue else env key

/-- Embeds `getEnvBool` from factory.go. -/
def getEnvBool (env : Env) (key : String) (defaultValue : Bool) : Bool :=
  if env key = "" then defaultValue
  else
    let v := toLowerStr (env key)
    v = "true" || v = "yes" || v = "1" || v = "on"

/-- The configuration-building portion of `Factory.CreateFromEnv`
(factory.go lines 88-124): provider selection with the MinIO default,
lowercasing, and the per-provider property tables, with map entries
listed in the source's assignment order. -/
def buildConfigFromEnv (env : Env) : Except GoError Config :=
  let storageType := if env "STORAGE_TYPE" = "" then "minio" else env "STORAGE_TYPE"
  let provider : Provider := toLowerStr storageType
  if provider = MinIO then
    .ok { Provider := provider
          Properties := some
            [("endpoint", .str (getEnv env "MINIO_ENDPOINT" "localhost:9000")),
             ("bucket", .str (getEnv env "MINIO_BUCKET" "uploads")),
             ("region", .str (getEnv env "MINIO_REGION" "us-east-1")),
             ("accessKey", .str (getEnv env "MINIO_ACCESS_KEY" "minioadmin")),
             ("secretKey", .str (getEnv env "MINIO_SECRET_KEY" "minioadmin")),
             ("useSSL", .boolean (getEnvBool env "MINIO_USE_SSL" false)),
             ("pathStyle", .boolean true),
             ("disableSSL", .boolean (!getEnvBool env "MINIO_USE_SSL" false))] }
  else if provider = Azure then
    .ok { Provider := provider
          Properties := some
            [("accountName", .str (getEnv env "AZURE_STORAGE_ACCOUNT" "")),
             ("accountKey", .str (getEnv env "AZURE_STORAGE_KEY" "")),
             ("containerName", .str (getEnv env "AZURE_STORAGE_CONTAINER" "uploads")),
             ("endpoint", .str (getEnv env "AZURE_STORAGE_ENDPOINT" "")),
             ("blobAccessTier", .str (getEnv env "AZURE_BLOB_ACCESS_TIER" "")),
             ("containerAccessType",
               .str (getEnv env "AZURE_CONTAINER_ACCESS_TYPE" "private"))] }
  else
    .error (.unsupportedProvider provider)

/-- Embeds `Factory.CreateFromEnv` (factory.go lines 87-128): build the config
from the environment, then the registry's resolve-and-initialize path. -/
def Factory.CreateFromEnv (f : Factory) (env : Env) (ws3 : S3World)
    (waz : AzureWorld) (fresh : Nat) : Except GoError StorageValue :=
  match buildConfigFromEnv env with
  | .error e => .error e
  | .ok cfg => f.registry.NewStorageFromConfig ws3 waz cfg fresh

/-- Embeds `Factory.CreateFromConfig` (factory.go lines 131-133). -/
def Factory.CreateFromConfig (f : Factory) (ws3 : S3World) (waz : AzureWorld)
    (cfg : Config) (fresh : Nat) : Except GoError StorageValue :=
  f.registry.NewStorageFromConfig ws3 waz cfg fresh

/-! ### Helper predicates shared by the claim theorems -/

/-- Whether an `Initialize` result is the Go success value. -/
def initOk : Except GoError Unit → Bool
  | .ok _ => true
  | .error _ => false

/-! ### Claim theorems -/

/-- C4: in the registry built by `NewFactory`, `Registry.Get` returns a
non-nil implementation and no error for the registered identifiers
`minio` and `azure`, and a nil implementation with a not-found error for
every other provider identifier (including `disk` and `memory`). -/
theorem newFactory_registry_get (m a : Nat) :
    (NewFactory m a).registry.Get MinIO = .ok (.minioS (NewMinIOStorage m)) ∧
    (NewFactory m a).registry.Get Azure = .ok (.azureS (NewAzureStorage a)) ∧
    (∀ p : Provider, p ≠ MinIO → p ≠ Azure →
      (NewFactory m a).registry.Get p = .error (.providerNotFound p)) ∧
    (NewFactory m a).registry.Get Disk = .error (.providerNotFound Disk) ∧
    (NewFactory m a).registry.Get Memory = .error (.providerNotFound Memory) := by
  refine ⟨rfl, rfl, ?_, rfl, rfl⟩
  intro p h1 h2
  have hb1 : (p == MinIO) = false := beq_eq_false_iff_ne.mpr h1
  have hb2 : (p == Azure) = false := beq_eq_false_iff_ne.mpr h2
  simp [Registry.Get, NewFactory, List.lookup, hb1, hb2]

/-- Witness for C4 at a concrete unregistered identifier. -/
theorem newFactory_registry_get_witness :
    Disk ≠ MinIO ∧ Disk ≠ Azure ∧
    (NewFactory 0 1).registry.Get Disk = .error (.providerNotFound Disk) :=
  ⟨by decide, by decide,
    (newFactory_registry_get 0 1).2.2.1 Disk (by decide) (by decide)⟩

/-- C5: for both backend variants and every `basePath`, `GetHandler`
called while the instance is not initialized — in particular on the
freshly constructed instances, before any successful `Initialize` —
returns no handler and the `ErrStorageNotConfigured` error. -/
theorem getHandler_requires_init (ok1 ok2 : Bool) (sm : MinIOStorage)
    (sa : AzureStorage) (basePath : String) (m a : Nat)
    (hm : sm.initialized = false) (ha : sa.initialized = false) :
    MinIOStorage.GetHandler ok1 sm basePath = .error .storageNotConfigured ∧
    AzureStorage.GetHandler ok2 sa basePath = .error .storageNotConfigured ∧
    (NewMinIOStorage m).initialized = false ∧
    (NewAzureStorage a).initialized = false := by
  refine ⟨?_, ?_, rfl, rfl⟩
  · simp [MinIOStorage.GetHandler, hm]
  · simp [AzureStorage.GetHandler, ha]

/-- Witness for C5 on the freshly constructed instances. -/
theorem getHandler_requires_init_witness :
    (NewMinIOStorage 0).initialized = false ∧
    (NewAzureStorage 1).initialized = false ∧
    MinIOStorage.GetHandler true (NewMinIOStorage 0) "/files/" =
      .error .storageNotConfigured ∧
    AzureStorage.GetHandler true (NewAzureStorage 1) "/files/" =
      .error .storageNotConfigured :=
  ⟨rfl, rfl,
    (getHandler_requires_init true true (NewMinIOStorage 0)
      (NewAzureStorage 1) "/files/" 0 1 rfl rfl).1,
    (getHandler_requires_init true true (NewMinIOStorage 0)
      (NewAzureStorage 1) "/files/" 0 1 rfl rfl).2.1⟩

/-- C3: whenever the merged Azure configuration (cfg.Properties overlaid
on the Azure defaults) has an empty account name or an empty account
key, `AzureStorage.Initialize` returns an error wrapping
`ErrInvalidConfig`, whatever the other properties say, and the receiver
is left unchanged — in particular it does not become initialized. -/
theorem azure_initialize_invalid_config (w : AzureWorld) (s : AzureStorage)
    (cfg : Config) (fresh : Nat)
    (h : (parseAzureConfig cfg.Properties).accountName = "" ∨
         (parseAzureConfig cfg.Properties).accountKey = "") :
    (∃ e, (AzureStorage.Initialize w s cfg fresh).1 = .error e ∧
      e.wraps .invalidConfig = true) ∧
    (AzureStorage.Initialize w s cfg fresh).2.1 = s ∧
    (AzureStorage.Initialize w s cfg fresh).2.1.initialized = s.initialized := by
  by_cases h1 : (parseAzureConfig cfg.Properties).accountName = ""
  · refine ⟨⟨.wrapped "azure account name is required" .invalidConfig, ?_, by decide⟩, ?_, ?_⟩ <;>
      simp [AzureStorage.Initialize, h1]
  · have h2 : (parseAzureConfig cfg.Properties).accountKey = "" := h.resolve_left h1
    refine ⟨⟨.wrapped "azure account key is required" .invalidConfig, ?_, by decide⟩, ?_, ?_⟩ <;>
      simp [AzureStorage.Initialize, h1, h2]

/-- Witness for C3: an Azure config with a key but no account name. -/
theorem azure_initialize_invalid_config_witness :
    ((parseAzureConfig (some [("accountKey", .str "key")])).accountName = "" ∨
     (parseAzureConfig (some [("accountKey", .str "key")])).accountKey = "") ∧
    ((∃ e, (AzureStorage.Initialize ⟨true⟩ (NewAzureStorage 0)
        { Provider := Azure, Properties := some [("accountKey", .str "key")] } 1).1 =
        .error e ∧ e.wraps .invalidConfig = true) ∧
     (AzureStorage.Initialize ⟨true⟩ (NewAzureStorage 0)
        { Provider := Azure, Properties := some [("accountKey", .str "key")] } 1).2.1 =
        NewAzureStorage 0 ∧
     (AzureStorage.Initialize ⟨true⟩ (NewAzureStorage 0)
        { Provider := Azure, Properties := some [("accountKey", .str "key")] } 1).2.1.initialized =
        (NewAzureStorage 0).initialized) :=
  ⟨Or.inl (by decide),
    azure_initialize_invalid_config ⟨true⟩ (NewAzureStorage 0)
      { Provider := Azure, Properties := some [("accountKey", .str "key")] } 1
      (Or.inl (by decide))⟩

/-- C8: when the properties carry no `endpoint`, `bucket` or `region`
entry, the S3-compatible `Initialize` keeps the defaults
`localhost:9000` / `uploads` / `us-east-1` in the configuration it
records on the receiver, and it never fails validation — no error it can
return wraps `ErrInvalidConfig`. -/
theorem minio_initialize_defaults (w : S3World) (s : MinIOStorage)
    (cfg : Config) (fresh : Nat)
    (he : lookupProp cfg.Properties "endpoint" = none)
    (hb : lookupProp cfg.Properties "bucket" = none)
    (hr : lookupProp cfg.Properties "region" = none) :
    (parseS3Config cfg.Properties).endpoint = "localhost:9000" ∧
    (parseS3Config cfg.Properties).bucket = "uploads" ∧
    (parseS3Config cfg.Properties).region = "us-east-1" ∧
    (MinIOStorage.Initialize w s cfg fresh).2.1.config.endpoint = "localhost:9000" ∧
    (MinIOStorage.Initialize w s cfg fresh).2.1.config.bucket = "uploads" ∧
    (MinIOStorage.Initialize w s cfg fresh).2.1.config.region = "us-east-1" ∧
    (∀ e, (MinIOStorage.Initialize w s cfg fresh).1 = .error e →
      e.wraps .invalidConfig = false) := by
  have hpe : (parseS3Config cfg.Properties).endpoint = "localhost:9000" := by
    simp [parseS3Config, getStrProp, he, defaultS3Config]
  have hpb : (parseS3Config cfg.Properties).bucket = "uploads" := by
    simp [parseS3Config, getStrProp, hb, defaultS3Config]
  have hpr : (parseS3Config cfg.Properties).region = "us-east-1" := by
    simp [parseS3Config, getStrProp, hr, defaultS3Config]
  have hcfg : (MinIOStorage.Initialize w s cfg fresh).2.1.config =
      parseS3Config cfg.Properties := by
    unfold MinIOStorage.Initialize
    split_ifs <;> rfl
  refine ⟨hpe, hpb, hpr, hcfg ▸ hpe, hcfg ▸ hpb, hcfg ▸ hpr, ?_⟩
  intro e hres
  unfold MinIOStorage.Initialize at hres
  split_ifs at hres <;> simp_all <;> subst hres <;> decide

/-- Witness for C8: properties supplying only credentials. -/
theorem minio_initialize_defaults_witness :
    lookupProp (some [("accessKey", .str "ak")]) "endpoint" = none ∧
    (parseS3Config (some [("accessKey", .str "ak")])).endpoint = "localhost:9000" ∧
    (MinIOStorage.Initialize ⟨true, true, true⟩ (NewMinIOStorage 0)
      { Provider := MinIO, Properties := some [("accessKey", .str "ak")] } 1).2.1.config.bucket =
      "uploads" :=
  ⟨by decide,
    (minio_initialize_defaults ⟨true, true, true⟩ (NewMinIOStorage 0)
      { Provider := MinIO, Properties := some [("accessKey", .str "ak")] } 1
      (by decide) (by decide) (by decide)).1,
    (minio_initialize_defaults ⟨true, true, true⟩ (NewMinIOStorage 0)
      { Provider := MinIO, Properties := some [("accessKey", .str "ak")] } 1
      (by decide) (by decide) (by decide)).2.2.2.2.1⟩

/-- C9: for both variants, the post-call `initialized` flag equals the
prior flag disjoined with success of the call — so a failed `Initialize`
leaves a not-yet-initialized instance uninitialized, every subsequent
`GetHandler` still fails with `ErrStorageNotConfigured`, and the
initialized state is reached only through a successful `Initialize`. -/
theorem initialize_failure_stays_uninitialized (w3 : S3World) (wa : AzureWorld)
    (sm : MinIOStorage) (sa : AzureStorage) (cfgm cfga : Config) (f1 f2 : Nat) :
    (MinIOStorage.Initialize w3 sm cfgm f1).2.1.initialized =
      (sm.initialized || initOk (MinIOStorage.Initialize w3 sm cfgm f1).1) ∧
    (AzureStorage.Initialize wa sa cfga f2).2.1.initialized =
      (sa.initialized || initOk (AzureStorage.Initialize wa sa cfga f2).1) ∧
    (∀ ok basePath e, sm.initialized = false →
      (MinIOStorage.Initialize w3 sm cfgm f1).1 = .error e →
      MinIOStorage.GetHandler ok (MinIOStorage.Initialize w3 sm cfgm f1).2.1 basePath =
        .error .storageNotConfigured) ∧
    (∀ ok basePath e, sa.initialized = false →
      (AzureStorage.Initialize wa sa cfga f2).1 = .error e →
      AzureStorage.GetHandler ok (AzureStorage.Initialize wa sa cfga f2).2.1 basePath =
        .error .storageNotConfigured) := by
  have hm : (MinIOStorage.Initialize w3 sm cfgm f1).2.1.initialized =
      (sm.initialized || initOk (MinIOStorage.Initialize w3 sm cfgm f1).1) := by
    by_cases h1 : w3.awsConfigOk = false <;>
      by_cases h2 : w3.bucketExists = true <;>
      by_cases h3 : w3.createBucketOk = true <;>
      simp [MinIOStorage.Initialize, h1, h2, h3, initOk]
  have ha : (AzureStorage.Initialize wa sa cfga f2).2.1.initialized =
      (sa.initialized || initOk (AzureStorage.Initialize wa sa cfga f2).1) := by
    by_cases h1 : (parseAzureConfig cfga.Properties).accountName = "" <;>
      by_cases h2 : (parseAzureConfig cfga.Properties).accountKey = "" <;>
      by_cases h3 : wa.serviceOk = true <;>
      simp [AzureStorage.Initialize, h1, h2, h3, initOk]
  refine ⟨hm, ha, ?_, ?_⟩
  · intro ok basePath e h0 herr
    have : (MinIOStorage.Initialize w3 sm cfgm f1).2.1.initialized = false := by
      rw [hm, h0, herr]; rfl
    simp [MinIOStorage.GetHandler, this]
  · intro ok basePath e h0 herr
    have : (AzureStorage.Initialize wa sa cfga f2).2.1.initialized = false := by
      rw [ha, h0, herr]; rfl
    simp [AzureStorage.GetHandler, this]

/-- Witness for C9: a failed S3 run (AWS config load fails) and a failed
Azure run (missing account name) both leave fresh instances unusable. -/
theorem initialize_failure_stays_uninitialized_witness :
    (NewMinIOStorage 0).initialized = false ∧
    (NewAzureStorage 0).initialized = false ∧
    (MinIOStorage.Initialize ⟨false, true, true⟩ (NewMinIOStorage 0)
      { Provider := MinIO, Properties := none } 1).1 =
      .error (.wrapped "failed to load AWS SDK config" .awsConfigLoadFailed) ∧
    (AzureStorage.Initialize ⟨true⟩ (NewAzureStorage 0)
      { Provider := Azure, Properties := none } 1).1 =
      .error (.wrapped "azure account name is required" .invalidConfig) ∧
    MinIOStorage.GetHandler true
      (MinIOStorage.Initialize ⟨false, true, true⟩ (NewMinIOStorage 0)
        { Provider := MinIO, Properties := none } 1).2.1 "/files/" =
      .error .storageNotConfigured ∧
    AzureStorage.GetHandler true
      (AzureStorage.Initialize ⟨true⟩ (NewAzureStorage 0)
        { Provider := Azure, Properties := none } 1).2.1 "/files/" =
      .error .storageNotConfigured :=
  ⟨rfl, rfl, by decide, by decide,
    (initialize_failure_stays_uninitialized ⟨false, true, true⟩ ⟨true⟩
      (NewMinIOStorage 0) (NewAzureStorage 0)
      { Provider := MinIO, Properties := none }
      { Provider := Azure, Properties := none } 1 1).2.2.1 true "/files/"
      (.wrapped "failed to load AWS SDK config" .awsConfigLoadFailed) rfl (by decide),
    (initialize_failure_stays_uninitialized ⟨false, true, true⟩ ⟨true⟩
      (NewMinIOStorage 0) (NewAzureStorage 0)
      { Provider := MinIO, Properties := none }
      { Provider := Azure, Properties := none } 1 1).2.2.2 true "/files/"
      (.wrapped "azure account name is required" .invalidConfig) rfl (by decide)⟩

/-- C7: after a successful `Initialize` of either variant, two
consecutive `GetStoreComposer` calls return the same composer — the one
assembled during `Initialize`, carrying locker and store — and the read
does not change the instance; on a fresh, uninitialized instance the
call returns the empty `NewStoreComposer` value (no locker, no store)
and its return type admits no error at all. -/
theorem getStoreComposer_stable (w3 : S3World) (wa : AzureWorld)
    (sm : MinIOStorage) (sa : AzureStorage) (cfgm cfga : Config)
    (f1 f2 m a : Nat)
    (hm : (MinIOStorage.Initialize w3 sm cfgm f1).1 = .ok ())
    (ha : (AzureStorage.Initialize wa sa cfga f2).1 = .ok ()) :
    ((MinIOStorage.Initialize w3 sm cfgm f1).2.1.GetStoreComposer.1 =
      ((MinIOStorage.Initialize w3 sm cfgm f1).2.1.GetStoreComposer.2.GetStoreComposer.1) ∧
     (MinIOStorage.Initialize w3 sm cfgm f1).2.1.GetStoreComposer.1 =
      { ptr := f1, hasLocker := true, hasStore := true }) ∧
    ((AzureStorage.Initialize wa sa cfga f2).2.1.GetStoreComposer.1 =
      ((AzureStorage.Initialize wa sa cfga f2).2.1.GetStoreComposer.2.GetStoreComposer.1) ∧
     (AzureStorage.Initialize wa sa cfga f2).2.1.GetStoreComposer.1 =
      { ptr := f2, hasLocker := true, hasStore := true }) ∧
    (NewMinIOStorage m).GetStoreComposer.1 = NewStoreComposer m ∧
    (NewAzureStorage a).GetStoreComposer.1 = NewStoreComposer a ∧
    (NewStoreComposer m).hasLocker = false ∧ (NewStoreComposer m).hasStore = false := by
  refine ⟨⟨rfl, ?_⟩, ⟨rfl, ?_⟩, rfl, rfl, rfl, rfl⟩
  · by_cases h1 : w3.awsConfigOk = false <;>
      by_cases h2 : w3.bucketExists = true <;>
      by_cases h3 : w3.createBucketOk = true <;>
      simp_all [MinIOStorage.Initialize, MinIOStorage.GetStoreComposer, h1, h2, h3]
  · by_cases h1 : (parseAzureConfig cfga.Properties).accountName = "" <;>
      by_cases h2 : (parseAzureConfig cfga.Properties).accountKey = "" <;>
      by_cases h3 : wa.serviceOk = true <;>
      simp_all [AzureStorage.Initialize, AzureStorage.GetStoreComposer, h1, h2, h3]

/-- Witness for C7: successful defaults-only S3 run and a minimal valid
Azure run. -/
theorem getStoreComposer_stable_witness :
    (MinIOStorage.Initialize ⟨true, true, true⟩ (NewMinIOStorage 0)
      { Provider := MinIO, Properties := none } 7).1 = .ok () ∧
    (AzureStorage.Initialize ⟨true⟩ (NewAzureStorage 0)
      { Provider := Azure,
        Properties := some [("accountName", .str "acct"), ("accountKey", .str "key")] } 9).1 =
      .ok () ∧
    (MinIOStorage.Initialize ⟨true, true, true⟩ (NewMinIOStorage 0)
      { Provider := MinIO, Properties := none } 7).2.1.GetStoreComposer.1 =
      { ptr := 7, hasLocker := true, hasStore := true } ∧
    (AzureStorage.Initialize ⟨true⟩ (NewAzureStorage 0)
      { Provider := Azure,
        Properties := some [("accountName", .str "acct"), ("accountKey", .str "key")] } 9).2.1.GetStoreComposer.1 =
      { ptr := 9, hasLocker := true, hasStore := true } :=
  ⟨by decide, by decide,
    (getStoreComposer_stable ⟨true, true, true⟩ ⟨true⟩ (NewMinIOStorage 0)
      (NewAzureStorage 0) { Provider := MinIO, Properties := none }
      { Provider := Azure,
        Properties := some [("accountName", .str "acct"), ("accountKey", .str "key")] }
      7 9 0 0 (by decide) (by decide)).1.2,
    (getStoreComposer_stable ⟨true, true, true⟩ ⟨true⟩ (NewMinIOStorage 0)
      (NewAzureStorage 0) { Provider := MinIO, Properties := none }
      { Provider := Azure,
        Properties := some [("accountName", .str "acct"), ("accountKey", .str "key")] }
      7 9 0 0 (by decide) (by decide)).2.1.2⟩

/-- C6: a recognized property key holding a value of the wrong type is
silently ignored — the merged configuration keeps the built-in default
for that field, for both variants — and no error is ever raised on that
account: the S3-compatible `Initialize` succeeds whenever the external
calls do, and the Azure `Initialize` succeeds whenever the merged
mandatory fields are nonempty and the SDK call does, independently of
any mistyped entries. -/
theorem mistyped_properties_ignored :
    (∀ ps v, lookupProp ps "endpoint" = some v → (∀ str, v ≠ .str str) →
      (parseS3Config ps).endpoint = "localhost:9000" ∧
      (parseAzureConfig ps).endpoint = "") ∧
    (∀ ps v, lookupProp ps "useSSL" = some v → (∀ b, v ≠ .boolean b) →
      (parseS3Config ps).useSSL = false) ∧
    (∀ w s cfg fresh, w.awsConfigOk = true → w.bucketExists = true →
      (MinIOStorage.Initialize w s cfg fresh).1 = .ok ()) ∧
    (∀ w s cfg fresh, w.serviceOk = true →
      (parseAzureConfig cfg.Properties).accountName ≠ "" →
      (parseAzureConfig cfg.Properties).accountKey ≠ "" →
      (AzureStorage.Initialize w s cfg fresh).1 = .ok ()) := by
  refine ⟨?_, ?_, ?_, ?_⟩
  · intro ps v hl hv
    constructor <;> · simp only [parseS3Config, parseAzureConfig, getStrProp, hl]
                      cases v with
                      | str s => exact absurd rfl (hv s)
                      | boolean b => rfl
                      | other => rfl
  · intro ps v hl hv
    simp only [parseS3Config, getBoolProp, hl]
    cases v with
    | str s => rfl
    | boolean b => exact absurd rfl (hv b)
    | other => rfl
  · intro w s cfg fresh h1 h2
    simp [MinIOStorage.Initialize, h1, h2]
  · intro w s cfg fresh h1 h2 h3
    simp [AzureStorage.Initialize, h1, h2, h3]

/-- Witness for C6: a boolean under `endpoint` and a string under
`useSSL` fall back to the defaults, and a MinIO run carrying both
mistyped entries still initializes successfully. -/
theorem mistyped_properties_ignored_witness :
    (parseS3Config (some [("endpoint", .boolean true), ("useSSL", .str "yes")])).endpoint =
      "localhost:9000" ∧
    (parseAzureConfig (some [("endpoint", .boolean true)])).endpoint = "" ∧
    (parseS3Config (some [("endpoint", .boolean true), ("useSSL", .str "yes")])).useSSL =
      false ∧
    (MinIOStorage.Initialize ⟨true, true, true⟩ (NewMinIOStorage 0)
      { Provider := MinIO,
        Properties := some [("endpoint", .boolean true), ("useSSL", .str "yes")] } 1).1 =
      .ok () :=
  ⟨(mistyped_properties_ignored.1
      (some [("endpoint", .boolean true), ("useSSL", .str "yes")]) (.boolean true)
      (by decide) (by intro str h; cases h)).1,
   (mistyped_properties_ignored.1 (some [("endpoint", .boolean true)]) (.boolean true)
      (by decide) (by intro str h; cases h)).2,
   mistyped_properties_ignored.2.1
      (some [("endpoint", .boolean true), ("useSSL", .str "yes")]) (.str "yes")
      (by decide) (by intro b h; cases h),
   mistyped_properties_ignored.2.2.1 ⟨true, true, true⟩ (NewMinIOStorage 0)
      { Provider := MinIO,
        Properties := some [("endpoint", .boolean true), ("useSSL", .str "yes")] } 1
      rfl rfl⟩

/-- C10: the S3 client is always constructed with path-style addressing
on — `mkS3Client` sets `usePathStyle` to `true` unconditionally and is
insensitive to the parsed `pathStyle` field — so whenever the AWS config
load succeeds the client recorded on the receiver has `usePathStyle`
true, and the trace records the construction with path style on, even
when the properties set `pathStyle` to `false`. -/
theorem s3_client_path_style_forced (w : S3World) (s : MinIOStorage)
    (cfg : Config) (fresh : Nat) (h : w.awsConfigOk = true) :
    (MinIOStorage.Initialize w s cfg fresh).2.1.s3Client =
      some (mkS3Client (parseS3Config cfg.Properties)) ∧
    (∀ c : S3Config, (mkS3Client c).usePathStyle = true) ∧
    (∀ (c : S3Config) (b : Bool), mkS3Client { c with pathStyle := b } = mkS3Client c) ∧
    SdkOp.mkS3Client true ∈ (MinIOStorage.Initialize w s cfg fresh).2.2 ∧
    (parseS3Config (some [("pathStyle", .boolean false)])).pathStyle = false := by
  refine ⟨?_, fun c => rfl, fun c b => rfl, ?_, by decide⟩
  · by_cases h2 : w.bucketExists = true <;>
      by_cases h3 : w.createBucketOk = true <;>
      simp [MinIOStorage.Initialize, h, h2, h3, mkS3Client]
  · by_cases h2 : w.bucketExists = true <;>
      by_cases h3 : w.createBucketOk = true <;>
      simp [MinIOStorage.Initialize, h, h2, h3, mkS3Client]

/-- Witness for C10: properties explicitly disabling `pathStyle` still
yield a client with path-style addressing on. -/
theorem s3_client_path_style_forced_witness :
    (⟨true, true, true⟩ : S3World).awsConfigOk = true ∧
    (MinIOStorage.Initialize ⟨true, true, true⟩ (NewMinIOStorage 0)
      { Provider := MinIO, Properties := some [("pathStyle", .boolean false)] } 1).2.1.s3Client =
      some (mkS3Client (parseS3Config (some [("pathStyle", .boolean false)]))) ∧
    (mkS3Client (parseS3Config (some [("pathStyle", .boolean false)]))).usePathStyle = true :=
  ⟨rfl,
   (s3_client_path_style_forced ⟨true, true, true⟩ (NewMinIOStorage 0)
      { Provider := MinIO, Properties := some [("pathStyle", .boolean false)] } 1 rfl).1,
   (s3_client_path_style_forced ⟨true, true, true⟩ (NewMinIOStorage 0)
      { Provider := MinIO, Properties := some [("pathStyle", .boolean false)] } 1 rfl).2.1
     (parseS3Config (some [("pathStyle", .boolean false)]))⟩

/-- Claim C2 as stated, formalized over the SDK traces: every successful
`Initialize` of either variant issues a bucket/container existence
check. -/
def everySuccessfulInitChecksExistence : Prop :=
  (∀ (w : S3World) (s : MinIOStorage) (cfg : Config) (fresh : Nat),
    (MinIOStorage.Initialize w s cfg fresh).1 = .ok () →
    ∃ op ∈ (MinIOStorage.Initialize w s cfg fresh).2.2, op.isExistenceCheck = true) ∧
  (∀ (w : AzureWorld) (s : AzureStorage) (cfg : Config) (fresh : Nat),
    (AzureStorage.Initialize w s cfg fresh).1 = .ok () →
    ∃ op ∈ (AzureStorage.Initialize w s cfg fresh).2.2, op.isExistenceCheck = true)

/-- A minimal valid Azure configuration used to exhibit a successful
Azure `Initialize`. -/
def azureExampleConfig : Config :=
  { Provider := Azure
    Properties := some [("accountName", .str "acct"), ("accountKey", .str "key")] }

/-- C2, counterexample: the Azure `Initialize` of this repository
succeeds on a valid configuration while issuing only the SDK service
construction — no container existence check of its own — so the claim's
"holds for both backend variants" fails. -/
theorem azure_initialize_no_existence_check : ¬ everySuccessfulInitChecksExistence := by
  intro h
  exact absurd (h.2 ⟨true⟩ (NewAzureStorage 0) azureExampleConfig 1 (by decide))
    (by decide)

/-- C2 (amended): the S3-compatible `Initialize` verifies that the
bucket exists right after constructing the SDK client — on success its
trace is exactly client construction followed by `HeadBucket`, with
`CreateBucket` appended when the existence check failed — a failed
check triggers auto-creation, and a creation failure makes `Initialize`
return an error; the Azure variant delegates to the SDK service
constructor and performs no existence check of its own. -/
theorem initialize_bucket_verification (w : S3World) (s : MinIOStorage)
    (cfg : Config) (fresh : Nat) :
    (∀ u, (MinIOStorage.Initialize w s cfg fresh).1 = .ok u →
      ((MinIOStorage.Initialize w s cfg fresh).2.2 =
        [.loadAwsConfig, .mkS3Client true,
         .headBucket (parseS3Config cfg.Properties).bucket] ∨
       (MinIOStorage.Initialize w s cfg fresh).2.2 =
        [.loadAwsConfig, .mkS3Client true,
         .headBucket (parseS3Config cfg.Properties).bucket,
         .createBucket (parseS3Config cfg.Properties).bucket])) ∧
    (w.awsConfigOk = true → w.bucketExists = false →
      SdkOp.createBucket (parseS3Config cfg.Properties).bucket ∈
        (MinIOStorage.Initialize w s cfg fresh).2.2) ∧
    (w.awsConfigOk = true → w.bucketExists = false → w.createBucketOk = false →
      (MinIOStorage.Initialize w s cfg fresh).1 =
        .error (.wrapped "error creating bucket" .createBucketFailed)) ∧
    (∀ (wa : AzureWorld) (sa : AzureStorage) (cfga : Config) (fa : Nat) u,
      (AzureStorage.Initialize wa sa cfga fa).1 = .ok u →
      ∀ op ∈ (AzureStorage.Initialize wa sa cfga fa).2.2,
        op.isExistenceCheck = false) := by
  refine ⟨?_, ?_, ?_, ?_⟩
  · intro u hok
    by_cases h1 : w.awsConfigOk = false <;>
      by_cases h2 : w.bucketExists = true <;>
      by_cases h3 : w.createBucketOk = true <;>
      simp_all [MinIOStorage.Initialize, mkS3Client]
  · intro h1 h2
    by_cases h3 : w.createBucketOk = true <;>
      simp_all [MinIOStorage.Initialize, mkS3Client]
  · intro h1 h2 h3
    simp [MinIOStorage.Initialize, h1, h2, h3]
  · intro wa sa cfga fa u hok op hop
    by_cases h1 : (parseAzureConfig cfga.Properties).accountName = "" <;>
      by_cases h2 : (parseAzureConfig cfga.Properties).accountKey = "" <;>
      by_cases h3 : wa.serviceOk = true <;>
      simp_all [AzureStorage.Initialize]
    all_goals simp [hop, SdkOp.isExistenceCheck]

/-- Witness for C2 (amended): a run whose bucket is missing and whose
creation succeeds, showing the check-then-create trace, and a run whose
creation fails, showing the error. -/
theorem initialize_bucket_verification_witness :
    (MinIOStorage.Initialize ⟨true, false, true⟩ (NewMinIOStorage 0)
      { Provider := MinIO, Properties := none } 1).1 = .ok () ∧
    ((MinIOStorage.Initialize ⟨true, false, true⟩ (NewMinIOStorage 0)
        { Provider := MinIO, Properties := none } 1).2.2 =
      [.loadAwsConfig, .mkS3Client true, .headBucket "uploads"] ∨
     (MinIOStorage.Initialize ⟨true, false, true⟩ (NewMinIOStorage 0)
        { Provider := MinIO, Properties := none } 1).2.2 =
      [.loadAwsConfig, .mkS3Client true, .headBucket "uploads",
       .createBucket "uploads"]) ∧
    SdkOp.createBucket "uploads" ∈
      (MinIOStorage.Initialize ⟨true, false, true⟩ (NewMinIOStorage 0)
        { Provider := MinIO, Properties := none } 1).2.2 ∧
    (MinIOStorage.Initialize ⟨true, false, false⟩ (NewMinIOStorage 0)
      { Provider := MinIO, Properties := none } 1).1 =
      .error (.wrapped "error creating bucket" .createBucketFailed) :=
  ⟨by decide,
   (initialize_bucket_verification ⟨true, false, true⟩ (NewMinIOStorage 0)
      { Provider := MinIO, Properties := none } 1).1 () (by decide),
   (initialize_bucket_verification ⟨true, false, true⟩ (NewMinIOStorage 0)
      { Provider := MinIO, Properties := none } 1).2.1 rfl rfl,
   (initialize_bucket_verification ⟨true, false, false⟩ (NewMinIOStorage 0)
      { Provider := MinIO, Properties := none } 1).2.2.1 rfl rfl rfl⟩

/-- The six MinIO entries of the default table in spec section 6. -/
def propsMatchSpecTable (ps : Option Props) : Prop :=
  lookupProp ps "endpoint" = some (.str "localhost:9000") ∧
  lookupProp ps "bucket" = some (.str "uploads") ∧
  lookupProp ps "region" = some (.str "us-east-1") ∧
  lookupProp ps "accessKey" = some (.str "minioadmin") ∧
  lookupProp ps "secretKey" = some (.str "minioadmin") ∧
  lookupProp ps "useSSL" = some (.boolean false)

/-- The config `CreateFromEnv` builds in an empty environment, with the
map entries in the source's assignment order. -/
def defaultEnvMinioConfig : Config :=
  { Provider := MinIO
    Properties := some
      [("endpoint", .str "localhost:9000"), ("bucket", .str "uploads"),
       ("region", .str "us-east-1"), ("accessKey", .str "minioadmin"),
       ("secretKey", .str "minioadmin"), ("useSSL", .boolean false),
       ("pathStyle", .boolean true), ("disableSSL", .boolean true)] }

/-- Claim C1 as stated: with `STORAGE_TYPE` and all `MINIO_*` variables
unset, the built config selects the MinIO provider and its properties
are the section-6 table entries and nothing else. -/
def claimDefaultEnvOnlyTableEntries : Prop :=
  ∀ env : Env, env "STORAGE_TYPE" = "" → env "MINIO_ENDPOINT" = "" →
    env "MINIO_BUCKET" = "" → env "MINIO_REGION" = "" →
    env "MINIO_ACCESS_KEY" = "" → env "MINIO_SECRET_KEY" = "" →
    env "MINIO_USE_SSL" = "" →
    ∃ cfg, buildConfigFromEnv env = .ok cfg ∧ cfg.Provider = MinIO ∧
      propsMatchSpecTable cfg.Properties ∧
      ∀ k, k ≠ "endpoint" → k ≠ "bucket" → k ≠ "region" → k ≠ "accessKey" →
        k ≠ "secretKey" → k ≠ "useSSL" → lookupProp cfg.Properties k = none

/-- C1, counterexample: in the all-unset environment the built
properties additionally hold `pathStyle` (and `disableSSL`), keys
outside the section-6 table, so "no other entries" fails. -/
theorem default_env_config_has_extra_entries : ¬ claimDefaultEnvOnlyTableEntries := by
  intro h
  obtain ⟨cfg, hcfg, _, _, hnone⟩ := h (fun _ => "") rfl rfl rfl rfl rfl rfl rfl
  have hval : buildConfigFromEnv (fun _ => "") = .ok defaultEnvMinioConfig := by decide
  rw [hval] at hcfg
  injection hcfg with he
  subst he
  exact absurd
    (hnone "pathStyle" (by decide) (by decide) (by decide) (by decide) (by decide)
      (by decide))
    (by decide)

/-- C1 (amended): with `STORAGE_TYPE` unset, `CreateFromEnv` selects the
MinIO provider, and with no `MINIO_*` variables set the built properties
are exactly the section-6 table — endpoint `localhost:9000`, bucket
`uploads`, region `us-east-1`, accessKey and secretKey `minioadmin`,
useSSL false — plus the two hard-coded entries `pathStyle = true` and
`disableSSL = true` (the complement of useSSL), and no other entries. -/
theorem createFromEnv_default_minio_config (env : Env)
    (h0 : env "STORAGE_TYPE" = "") (h1 : env "MINIO_ENDPOINT" = "")
    (h2 : env "MINIO_BUCKET" = "") (h3 : env "MINIO_REGION" = "")
    (h4 : env "MINIO_ACCESS_KEY" = "") (h5 : env "MINIO_SECRET_KEY" = "")
    (h6 : env "MINIO_USE_SSL" = "") :
    buildConfigFromEnv env = .ok defaultEnvMinioConfig ∧
    defaultEnvMinioConfig.Provider = MinIO ∧
    propsMatchSpecTable defaultEnvMinioConfig.Properties ∧
    lookupProp defaultEnvMinioConfig.Properties "pathStyle" = some (.boolean true) ∧
    lookupProp defaultEnvMinioConfig.Properties "disableSSL" = some (.boolean true) ∧
    (∀ k, k ≠ "endpoint" → k ≠ "bucket" → k ≠ "region" → k ≠ "accessKey" →
      k ≠ "secretKey" → k ≠ "useSSL" → k ≠ "pathStyle" → k ≠ "disableSSL" →
      lookupProp defaultEnvMinioConfig.Properties k = none) := by
  refine ⟨?_, rfl, ⟨rfl, rfl, rfl, rfl, rfl, rfl⟩, rfl, rfl, ?_⟩
  · simp only [buildConfigFromEnv, getEnv, getEnvBool, h0, h1, h2, h3, h4, h5, h6]
    rfl
  · intro k k1 k2 k3 k4 k5 k6 k7 k8
    have e1 : (k == "endpoint") = false := beq_eq_false_iff_ne.mpr k1
    have e2 : (k == "bucket") = false := beq_eq_false_iff_ne.mpr k2
    have e3 : (k == "region") = false := beq_eq_false_iff_ne.mpr k3
    have e4 : (k == "accessKey") = false := beq_eq_false_iff_ne.mpr k4
    have e5 : (k == "secretKey") = false := beq_eq_false_iff_ne.mpr k5
    have e6 : (k == "useSSL") = false := beq_eq_false_iff_ne.mpr k6
    have e7 : (k == "pathStyle") = false := beq_eq_false_iff_ne.mpr k7
    have e8 : (k == "disableSSL") = false := beq_eq_false_iff_ne.mpr k8
    simp [defaultEnvMinioConfig, lookupProp, List.lookup, e1, e2, e3, e4, e5, e6, e7, e8]

/-- Witness for C1 (amended) in the everywhere-empty environment. -/
theorem createFromEnv_default_minio_config_witness :
    (fun _ => "" : Env) "STORAGE_TYPE" = "" ∧
    buildConfigFromEnv (fun _ => "") = .ok defaultEnvMinioConfig ∧
    lookupProp defaultEnvMinioConfig.Properties "nosuchkey" = none :=
  ⟨rfl,
   (createFromEnv_default_minio_config (fun _ => "") rfl rfl rfl rfl rfl rfl rfl).1,
   (createFromEnv_default_minio_config (fun _ => "") rfl rfl rfl rfl rfl rfl rfl).2.2.2.2.2
     "nosuchkey" (by decide) (by decide) (by decide) (by decide) (by decide)
     (by decide) (by decide) (by decide)⟩
